import Mathlib

/-!
Verification of the sponge code-generation CLI slice:
`cmd/sponge/commands/generate/model.go`, `cmd/sponge/commands/generate/rpc.go`
and `cmd/sponge/commands/patch/gen-db-init.go`.

The commands are shallowly embedded: the pure decision logic of each
command's `RunE` body and of the `generateCode` methods is translated into
Lean functions; external collaborators (sql2code generation, the replacer's
SaveFiles, the filesystem) are passed in as explicit parameters or modelled
as explicit state.
-/

namespace Sponge

/-- Modelled from the spec: the database-driver string constants of the
`generate` package (`DBDriverMysql`, ...), whose defining file is not part of
this slice.  The CLI help text lists the supported drivers as
"mysql, mongodb, postgresql, tidb, sqlite" and the spec refers to the
"lowercase constant" for mongodb. -/
def DBDriverMysql : String := "mysql"

/-- Modelled from the spec: see `DBDriverMysql`. -/
def DBDriverPostgresql : String := "postgresql"

/-- Modelled from the spec: see `DBDriverMysql`. -/
def DBDriverTidb : String := "tidb"

/-- Modelled from the spec: see `DBDriverMysql`. -/
def DBDriverSqlite : String := "sqlite"

/-- Modelled from the spec: see `DBDriverMysql`. -/
def DBDriverMongodb : String := "mongodb"

/-- `replacer.Field`: one literal find/replace rewrite rule
(`{Old, New, IsCaseSensitive}`).  The Go zero value of `IsCaseSensitive`
is `false`, hence the default. -/
structure Field where
  old : String
  new : String
  isCaseSensitive : Bool := false
deriving DecidableEq, Repr

/-- Character normalisation used for matching: identity when the field is
case-sensitive, lower-casing when it is not. -/
def normChar (cs : Bool) (c : Char) : Char :=
  if cs then c else c.toLower

/-- Does `pat` match the front of `s`, comparing characters through
`normChar cs`? -/
def startsWithL (cs : Bool) : List Char → List Char → Bool
  | [], _ => true
  | _ :: _, [] => false
  | a :: as, b :: bs => (normChar cs a == normChar cs b) && startsWithL cs as bs

/-- Modelled from the spec: the Field Substitution Engine
(`pkg/replacer`, not part of this slice) "applies each field as a literal
(non-regex) find-and-replace across the full content, honoring the
caseSensitive flag per field (insensitive fields still preserve the
replacement text's casing as given — only matching ignores case)".
Left-to-right, non-overlapping replace-all over the character list; the
replacement text is not rescanned.  `fuel` bounds the recursion; every call
site supplies the content length, which suffices since each step consumes at
least one character.  An empty pattern never matches. -/
def replaceFuel (cs : Bool) : Nat → List Char → List Char → List Char → List Char
  | 0, s, _, _ => s
  | _ + 1, [], _, _ => []
  | fuel + 1, c :: rest, old, new =>
    if old ≠ [] ∧ startsWithL cs old (c :: rest) = true then
      new ++ replaceFuel cs fuel ((c :: rest).drop old.length) old new
    else
      c :: replaceFuel cs fuel rest old new

/-- Apply one substitution field to a string. -/
def applyField (f : Field) (s : String) : String :=
  ⟨replaceFuel f.isCaseSensitive s.data.length s.data f.old.data f.new.data⟩

/-- Apply an ordered field list, in list order. -/
def applyFields (fs : List Field) (s : String) : String :=
  fs.foldl (fun acc f => applyField f acc) s

/-! ### Table-list handling of the `model` and `rpc` commands -/

/-- `strings.Split` with the one-character separator `,`, written as a
structural recursion over the character list so that it evaluates inside
the kernel.  Like Go's `strings.Split`, the result always has one more
entry than there are commas; in particular the empty string yields `[""]`. -/
def splitCommaL : List Char → List String
  | [] => [""]
  | c :: rest =>
    let r := splitCommaL rest
    if c = ',' then "" :: r
    else
      match r with
      | [] => [⟨[c]⟩]
      | s :: ss => ⟨c :: s.data⟩ :: ss

/-- `strings.Split(dbTables, ",")` as performed at the top of both `RunE`
bodies (`model.go` line 49, `rpc.go` line 61). -/
def splitTables (dbTables : String) : List String :=
  splitCommaL dbTables.data

/-- The `(table, IsEmbed)` argument pairs with which `model.go`'s `RunE`
loop calls `sql2code.Generate` (lines 50–62): empty names are skipped with
`continue`; when `sqlArgs.DBDriver == DBDriverMongodb` the mutable
`sqlArgs.IsEmbed` is set to `false` before the call and stays false for the
remaining iterations. -/
def modelGenerateArgs (driver : String) : List String → Bool → List (String × Bool)
  | [], _ => []
  | t :: ts, emb =>
    if t = "" then modelGenerateArgs driver ts emb
    else
      let emb' := if driver = DBDriverMongodb then false else emb
      (t, emb') :: modelGenerateArgs driver ts emb'

/-- The `sql2code.Generate` argument pairs of one `model` command
invocation, from the raw `--db-table` flag value. -/
def modelCommandGenerateArgs (driver : String) (embedFlag : Bool) (dbTables : String) :
    List (String × Bool) :=
  modelGenerateArgs driver (splitTables dbTables) embedFlag

/-- The primary/secondary split of `rpc.go`'s `RunE` (lines 59–67):
`firstTable = tableNames[0]`, and when more than one name is present the
remainder become `servicesTableNames`.  (`strings.Split` never yields an
empty slice, so the `[]` case is unreachable; it keeps the Go zero values.) -/
def rpcFirstAndRest (tables : List String) : String × List String :=
  match tables with
  | [] => ("", [])
  | [t] => (t, [])
  | t :: ts => (t, ts)

/-- The `(table, IsEmbed)` argument pairs with which `rpc.go`'s `RunE`
calls `sql2code.Generate`: the mongodb embed override happens once before
the primary call (lines 70–72); the primary table is passed unconditionally
(line 74); secondary names are skipped when empty (lines 95–98). -/
def rpcGenerateArgs (driver : String) (embedFlag : Bool) (dbTables : String) :
    List (String × Bool) :=
  let fr := rpcFirstAndRest (splitTables dbTables)
  let emb := if driver = DBDriverMongodb then false else embedFlag
  (fr.1, emb) :: (fr.2.filter (fun t => t ≠ "")).map (fun t => (t, emb))

/-- The embed flag actually stored into `sqlArgs.IsEmbed` right before
generation (`model.go` lines 55–57, `rpc.go` lines 70–72): forced to
`false` exactly when the driver string equals `DBDriverMongodb`
(a case-sensitive comparison, unlike the ignore-file switch). -/
def effectiveEmbed (driver : String) (flag : Bool) : Bool :=
  if driver = DBDriverMongodb then false else flag

/-! ### Output-path threading across passes -/

/-- One executed generation pass: the table it was for, the `outPath` the
generator struct was built with, and the output path the pass returned. -/
structure Pass where
  table : String
  inPath : String
  outPath : String
deriving DecidableEq, Repr

/-- The secondary-pass loop shape shared by `model.go` (lines 50–72) and
`rpc.go` (lines 95–118), with the per-table generation abstracted as
`gen : table → outPath → returned path`: empty names are skipped; otherwise
the generator is built with the current `outPath` and the loop variable
`outPath` is overwritten with the pass's returned path. -/
def chainPasses (gen : String → String → String) : List String → String → List Pass
  | [], _ => []
  | t :: ts, out =>
    if t = "" then chainPasses gen ts out
    else (⟨t, out, gen t out⟩ : Pass) :: chainPasses gen ts (gen t out)

/-- The full pass sequence of one `rpc` command invocation (lines 58–118):
the primary pass runs first with the `--out` flag value, then the secondary
loop runs on the returned path. -/
def rpcPasses (gen : String → String → String) (dbTables out0 : String) : List Pass :=
  let fr := rpcFirstAndRest (splitTables dbTables)
  let firstOut := gen fr.1 out0
  (⟨fr.1, out0, firstOut⟩ : Pass) :: chainPasses gen fr.2 firstOut

/-- The pass list is a chain starting at `out`: each pass's input path is
the previous pass's returned path. -/
def chainedFrom (out : String) : List Pass → Prop
  | [] => True
  | p :: ps => p.inPath = out ∧ chainedFrom p.outPath ps

/-! ### Failure propagation across passes -/

/-- The secondary loop of `rpc.go` (lines 95–118) with fallible
collaborators: `s2c` is `sql2code.Generate` (table ↦ codes) and `gen` is
`serviceGenerator.generateCode` (table, codes, outPath ↦ returned path).
Returns the passes that completed together with the loop's result; an error
return leaves the already-completed passes in place (they are on disk) and
starts no further pass. -/
def runSecondaries (s2c : String → Except String String)
    (gen : String → String → String → Except String String) :
    List String → String → List Pass × Except String String
  | [], out => ([], .ok out)
  | t :: ts, out =>
    if t = "" then runSecondaries s2c gen ts out
    else
      match s2c t with
      | .error e => ([], .error e)
      | .ok code =>
        match gen t code out with
        | .error e => ([], .error e)
        | .ok out' =>
          let rest := runSecondaries s2c gen ts out'
          ((⟨t, out, out'⟩ : Pass) :: rest.1, rest.2)

/-- One whole `rpc` `RunE` run at the pass level (lines 74–118): the primary
table's `sql2code.Generate`, the primary `generateCode`, then the secondary
loop; every error is returned immediately. -/
def rpcRunList (s2c : String → Except String String)
    (gen : String → String → String → Except String String)
    (first : String) (rest : List String) (out0 : String) :
    List Pass × Except String String :=
  match s2c first with
  | .error e => ([], .error e)
  | .ok code =>
    match gen first code out0 with
    | .error e => ([], .error e)
    | .ok out1 =>
      let r := runSecondaries s2c gen rest out1
      ((⟨first, out0, out1⟩ : Pass) :: r.1, r.2)

/-! ### Driver-specific scope selection and the `generateCode` methods -/

/-- `strings.ToLower`, written over the character list so that it evaluates
inside the kernel (the driver strings at issue are ASCII). -/
def lowerStr (s : String) : String :=
  ⟨s.data.map Char.toLower⟩

/-- The ignore-file list of `rpcGenerator.generateCode` for the relational
drivers (`rpc.go` lines 186–197). -/
def rpcRelationalIgnoreFiles : List String :=
  ["userExample_http.go", "systemCode_http.go",
   "http.go", "http_option.go", "http_test.go",
   "scripts/swag-docs.sh",
   "types.pb.validate.go", "types.pb.go",
   "userExample.pb.go", "userExample.pb.validate.go", "userExample_grpc.pb.go",
   "userExample_router.pb.go",
   "init_test.go", "init.go.mgo",
   "doc.go", "cacheNameExample.go", "cacheNameExample_test.go", "cache/userExample.go.mgo",
   "dao/userExample.go.mgo",
   "userExample_logic.go", "userExample_logic_test.go", "service/userExample_test.go",
   "service/userExample.go.mgo", "service/userExample_client_test.go.mgo"]

/-- The ignore-file list of `rpcGenerator.generateCode` for the mongodb
driver (`rpc.go` lines 198–209). -/
def rpcMongodbIgnoreFiles : List String :=
  ["userExample_http.go", "systemCode_http.go",
   "http.go", "http_option.go", "http_test.go",
   "scripts/swag-docs.sh",
   "types.pb.validate.go", "types.pb.go",
   "userExample.pb.go", "userExample.pb.validate.go", "userExample_grpc.pb.go",
   "userExample_router.pb.go",
   "init_test.go", "init.go",
   "doc.go", "cacheNameExample.go", "cacheNameExample_test.go", "cache/userExample.go",
   "cache/userExample_test.go",
   "dao/userExample_test.go", "dao/userExample.go",
   "userExample_logic.go", "userExample_logic_test.go", "service/userExample_test.go",
   "service/userExample.go", "service/userExample_client_test.go"]

/-- The `switch strings.ToLower(g.dbDriver)` of `rpcGenerator.generateCode`
(`rpc.go` lines 185–212): `some` ignore-file list for a supported driver,
`none` for the `default` branch. -/
def rpcIgnoreFilesFor (driver : String) : Option (List String) :=
  let d := lowerStr driver
  if d = DBDriverMysql ∨ d = DBDriverPostgresql ∨ d = DBDriverTidb ∨ d = DBDriverSqlite then
    some rpcRelationalIgnoreFiles
  else if d = DBDriverMongodb then
    some rpcMongodbIgnoreFiles
  else
    none

/-- The ignore-file list of `dbInitGenerator.generateCode` for the
relational drivers (`gen-db-init.go` lines 111–114). -/
def dbInitRelationalIgnoreFiles : List String :=
  ["userExample.go", "init_test.go", "init.go.mgo"]

/-- The ignore-file list of `dbInitGenerator.generateCode` for the mongodb
driver (`gen-db-init.go` lines 115–118). -/
def dbInitMongodbIgnoreFiles : List String :=
  ["userExample.go", "init_test.go", "init.go"]

/-- The `switch strings.ToLower(g.dbDriver)` of
`dbInitGenerator.generateCode` (`gen-db-init.go` lines 110–121). -/
def dbInitIgnoreFilesFor (driver : String) : Option (List String) :=
  let d := lowerStr driver
  if d = DBDriverMysql ∨ d = DBDriverPostgresql ∨ d = DBDriverTidb ∨ d = DBDriverSqlite then
    some dbInitRelationalIgnoreFiles
  else if d = DBDriverMongodb then
    some dbInitMongodbIgnoreFiles
  else
    none

/-- Modelled from the spec: the Generation-Info Record store
(`saveGenInfo` / `getNamesFromOutDir` of the `generate`/`patch` packages are
not part of this slice).  The spec: a "small persisted record
`{moduleName, serverName, templateVersion}` written into the output tree so
later, independent invocations ... can recover context".  Modelled as a map
from output directory to the `(moduleName, serverName)` pair. -/
structure GenInfoStore where
  records : List (String × String × String)
deriving DecidableEq, Repr

/-- Modelled from the spec: persist the Generation-Info Record for `outDir`
(write/overwrite; the newest record for a directory wins). -/
def saveGenInfo (moduleName serverName outDir : String) (st : GenInfoStore) : GenInfoStore :=
  ⟨(outDir, moduleName, serverName) :: st.records⟩

/-- Modelled from the spec: read the Generation-Info Record of `outDir`
back, yielding `(moduleName, serverName)`, or empty strings when the
directory holds no record. -/
def getNamesFromOutDir (outDir : String) (st : GenInfoStore) : String × String :=
  match st.records.find? (fun r => r.1 = outDir) with
  | some r => (r.2.1, r.2.2)
  | none => ("", "")

/-- Result of one `generateCode` call: the files it wrote (via the
replacer's `SaveFiles`) and its Go `(string, error)` return value. -/
structure GenOutcome where
  written : List String
  result : Except String String
deriving Repr

/-- `rpcGenerator.generateCode` (`rpc.go` lines 165–226), with the replacer
abstracted: `hasReplacer` is the `Replacers[TplNameSponge] != nil` check,
`save` stands for the configured replacer's `SaveFiles` (given the
driver-selected ignore-file list, it returns the files written or an
error), and `outDir` is the replacer's `GetOutputDir()`.  On success the
Generation-Info Record is persisted for `outDir` (the `saveGenInfo` error
is discarded in the source, so the model's save always succeeds). -/
def rpcGenerateCode (hasReplacer : Bool) (driver moduleName serverName : String)
    (save : List String → Except String (List String)) (outDir : String)
    (st : GenInfoStore) : GenOutcome × GenInfoStore :=
  if hasReplacer = false then
    (⟨[], .error "replacer is nil"⟩, st)
  else
    match rpcIgnoreFilesFor driver with
    | none => (⟨[], .error ("unsupported db driver: " ++ driver)⟩, st)
    | some ignoreFiles =>
      match save ignoreFiles with
      | .error e => (⟨[], .error e⟩, st)
      | .ok files => (⟨files, .ok outDir⟩, saveGenInfo moduleName serverName outDir st)

/-- `dbInitGenerator.generateCode` (`gen-db-init.go` lines 99–134), with the
replacer abstracted as in `rpcGenerateCode`. -/
def dbInitGenerateCode (hasReplacer : Bool) (driver : String)
    (save : List String → Except String (List String)) (outDir : String) : GenOutcome :=
  if hasReplacer = false then
    ⟨[], .error "replacer is nil"⟩
  else
    match dbInitIgnoreFilesFor driver with
    | none => ⟨[], .error ("unsupported database driver: " ++ driver)⟩
    | some ignoreFiles =>
      match save ignoreFiles with
      | .error e => ⟨[], .error e⟩
      | .ok files => ⟨files, .ok outDir⟩

/-! ### The `gen-db-init` command's `RunE` -/

/-- The terminal identifier file of the `gen-db-init` pass
(`gen-db-init.go` line 21). -/
def targetFile : String := "internal/model/init.go"

/-- Modelled from the spec: `gofile.IsExists` (`pkg/gofile`, not part of
this slice) is a plain file-existence test; a relative path is resolved by
the operating system against the process working directory.  The filesystem
is modelled as the list of paths of the files that exist. -/
def isExistsAt (fs : List String) (cwd : String) (path : String) : Bool :=
  fs.contains (cwd ++ "/" ++ path)

/-- Module-name resolution at the top of `gen-db-init`'s `RunE`
(`gen-db-init.go` lines 39–44): the name recovered from the output
directory's Generation-Info Record wins when non-empty; otherwise the
`--module-name` flag must be non-empty or the command errors. -/
def genDBInitResolveModule (st : GenInfoStore) (outPath flagModuleName : String) :
    Except String String :=
  let mdName := (getNamesFromOutDir outPath st).1
  if mdName ≠ "" then .ok mdName
  else if flagModuleName = "" then
    .error "required flag(s) module-name not set, use sponge patch gen-db-init -h for help"
  else .ok flagModuleName

/-- The `gen-db-init` command's `RunE` body (`gen-db-init.go` lines 38–66):
module-name resolution, then — only when `--out` is non-empty — the
`gofile.IsExists(targetFile)` early-return (note: the source passes the
bare relative `targetFile`, so it is resolved against the process working
directory `cwd`, not against `outPath`), then the generation pass. -/
def genDBInitRun (fs : List String) (cwd : String) (st : GenInfoStore)
    (outPath flagModuleName dbDriver : String) (hasReplacer : Bool)
    (save : List String → Except String (List String)) (genOutDir : String) : GenOutcome :=
  match genDBInitResolveModule st outPath flagModuleName with
  | .error e => ⟨[], .error e⟩
  | .ok _ =>
    if outPath ≠ "" ∧ isExistsAt fs cwd targetFile = true then
      ⟨[], .ok (targetFile ++ " already exists, no need to generate it.")⟩
    else
      dbInitGenerateCode hasReplacer dbDriver save genOutDir

/-! ### The ordered substitution field list of `rpcGenerator.addFields` -/

/-- The inputs of `rpcGenerator.addFields` (`rpc.go` lines 228–432).
String-valued constants of the `generate` package that are not defined in
this slice (the `...Mark` insertion markers, the `...Code` replacement
bodies, `selfPackageName`, the template version) and the results of helper
calls (`parseImageRepoAddr`, `getDBConfigCode`, `getInitDBCode`,
`getEmbedTimeCode`, `adjustmentOfIDType`, `xstrings.ToKebabCase`,
`sqliteDSNAdaptation`, `gofile.GetPathDelimiter`, `r.GetSourcePath`,
`rand.Intn(100)`) enter as parameters; `dynamicFields` stands for the
concatenated results of the `deleteFieldsMark` / `deleteAllFieldsMark` /
`replaceFileContentMark` calls (lines 233–255), which depend on the
replacer's template files. -/
structure RpcParams where
  moduleName : String
  serverName : String
  projectName : String
  repoAddr : String
  repoHost : String
  dbDSN : String
  tableName : String
  randNO : Nat
  pathDelim : String
  sourcePath : String
  selfPackageName : String
  templateVersion : String
  kebabServerName : String
  sqliteDSN : String
  codeModel : String
  codeDAO : String
  codeProto : String
  adjustedServiceCode : String
  dbConfigCode : String
  initDBCode : String
  embedTimeCode : String
  rpcServerConfigCode : String
  appConfigFileMark : String
  appConfigFileMark2 : String
  modelFileMark : String
  modelInitDBFileMark : String
  daoFileMark : String
  embedTimeMark : String
  protoFileMark : String
  protoShellFileGRPCMark : String
  protoShellGRPCMarkCode : String
  protoShellFileMark : String
  protoShellServiceTmplCode : String
  serviceFileMark : String
  dockerFileMark : String
  dockerFileGrpcCode : String
  dockerFileBuildMark : String
  dockerFileBuildGrpcCode : String
  imageBuildFileMark : String
  imageBuildFileGrpcCode : String
  imageBuildLocalFileMark : String
  imageBuildLocalFileGrpcCode : String
  dockerComposeFileMark : String
  dockerComposeFileGrpcCode : String
  k8sDeploymentFileMark : String
  k8sDeploymentFileGrpcCode : String
  k8sServiceFileMark : String
  k8sServiceFileGrpcCode : String
  spongeTemplateVersionMark : String
  dynamicFields : List Field

/-- The broad module-path rewrite rule of `rpcGenerator.addFields`
(`rpc.go` lines 338–341). -/
def broadModuleField (p : RpcParams) : Field :=
  ⟨"github.com/zhufuyi/sponge", p.moduleName, false⟩

/-- The narrow corrective rule of `rpcGenerator.addFields` that re-pins the
shared-library import path (`rpc.go` lines 342–345). -/
def narrowPkgField (p : RpcParams) : Field :=
  ⟨p.moduleName ++ "/pkg", "github.com/zhufuyi/sponge/pkg", false⟩

/-- The fields of `rpcGenerator.addFields` that precede the broad
module-path rule: the dynamic marker-deletion/readme fields
(`rpc.go` lines 233–255) followed by the literal rules of lines 256–337. -/
def rpcFieldsBeforeBroad (p : RpcParams) : List Field :=
  p.dynamicFields ++
  [⟨p.appConfigFileMark, p.rpcServerConfigCode, false⟩,
   ⟨p.appConfigFileMark2, p.dbConfigCode, false⟩,
   ⟨p.modelFileMark, p.codeModel, false⟩,
   ⟨p.modelInitDBFileMark, p.initDBCode, false⟩,
   ⟨p.daoFileMark, p.codeDAO, false⟩,
   ⟨p.embedTimeMark, p.embedTimeCode, false⟩,
   ⟨p.protoFileMark, p.codeProto, false⟩,
   ⟨p.protoShellFileGRPCMark, p.protoShellGRPCMarkCode, false⟩,
   ⟨p.protoShellFileMark, p.protoShellServiceTmplCode, false⟩,
   ⟨p.serviceFileMark, p.adjustedServiceCode, false⟩,
   ⟨p.dockerFileMark, p.dockerFileGrpcCode, false⟩,
   ⟨p.dockerFileBuildMark, p.dockerFileBuildGrpcCode, false⟩,
   ⟨p.imageBuildFileMark, p.imageBuildFileGrpcCode, false⟩,
   ⟨p.imageBuildLocalFileMark, p.imageBuildLocalFileGrpcCode, false⟩,
   ⟨p.dockerComposeFileMark, p.dockerComposeFileGrpcCode, false⟩,
   ⟨p.k8sDeploymentFileMark, p.k8sDeploymentFileGrpcCode, false⟩,
   ⟨p.k8sServiceFileMark, p.k8sServiceFileGrpcCode, false⟩,
   ⟨p.selfPackageName ++ "/" ++ p.sourcePath, p.moduleName, false⟩,
   ⟨"api" ++ p.pathDelim ++ "userExample" ++ p.pathDelim ++ "v1",
    "api" ++ p.pathDelim ++ p.serverName ++ p.pathDelim ++ "v1", false⟩]

/-- The rule replacing the template's error-code line with one carrying
`rand.Intn(100)` (`rpc.go` lines 362–365). -/
def userExampleNOField (p : RpcParams) : Field :=
  ⟨"_userExampleNO       = 2", "_userExampleNO       = " ++ toString p.randNO, false⟩

/-- The fields of `rpcGenerator.addFields` that follow the narrow
corrective rule (`rpc.go` lines 346–429), in source order. -/
def rpcFieldsAfterNarrow (p : RpcParams) : List Field :=
  [⟨p.spongeTemplateVersionMark, p.templateVersion, false⟩,
   ⟨"api/userExample/v1", "api/" ++ p.serverName ++ "/v1", false⟩,
   ⟨"api.userExample.v1", "api." ++ p.serverName ++ ".v1", false⟩,
   ⟨"sponge api docs", p.serverName ++ " api docs", false⟩,
   userExampleNOField p,
   ⟨"serverNameExample", p.serverName, false⟩,
   ⟨"server-name-example", p.kebabServerName, false⟩,
   ⟨"project-name-example", p.projectName, false⟩,
   ⟨"projectNameExample", p.projectName, false⟩,
   ⟨"repo-addr-example", p.repoAddr, false⟩,
   ⟨"image-repo-host", p.repoHost, false⟩,
   ⟨"_grpcExample", "", false⟩,
   ⟨"_mixExample", "", false⟩,
   ⟨"root:123456@(192.168.3.37:3306)/account", p.dbDSN, false⟩,
   ⟨"root:123456@192.168.3.37:5432/account", p.dbDSN, false⟩,
   ⟨"test/sql/sqlite/sponge.db", p.sqliteDSN, false⟩,
   ⟨"init.go.mgo", "init.go", false⟩,
   ⟨"userExample_client_test.go.mgo", "userExample_client_test.go", false⟩,
   ⟨"userExample.go.mgo", "userExample.go", false⟩,
   ⟨"UserExample", p.tableName, true⟩]

/-- The whole ordered field list built by `rpcGenerator.addFields`
(`rpc.go` lines 228–432). -/
def rpcAddFields (p : RpcParams) : List Field :=
  rpcFieldsBeforeBroad p ++ broadModuleField p :: narrowPkgField p :: rpcFieldsAfterNarrow p

/-- The shared-library import path that the narrow rule restores. -/
def spongePkgPath : String := "github.com/zhufuyi/sponge/pkg"

/-- Does `old` match (through `normChar cs`) at some position of the
content?  Mirrors the match condition of `replaceFuel`. -/
def hasMatchL (cs : Bool) (old : List Char) : List Char → Bool
  | [] => false
  | c :: rest =>
    if old ≠ [] ∧ startsWithL cs old (c :: rest) = true then true
    else hasMatchL cs old rest

/-- Does the field's pattern occur anywhere in `s` (under the field's
case-sensitivity)?  When it does not, applying the field is the identity. -/
def fieldHits (f : Field) (s : String) : Bool :=
  hasMatchL f.isCaseSensitive f.old.data s.data

/-- A representative concrete parameter set for `rpcGenerator.addFields`:
generic identity values, placeholder marker/body constants (none of which
occur in the shared-library import path or in the error-code line), and no
dynamic marker-deletion fields. -/
def sampleParams : RpcParams where
  moduleName := "example.com/foo"
  serverName := "bar"
  projectName := "proj"
  repoAddr := "192.168.3.37:9443/user-name"
  repoHost := "192.168.3.37:9443"
  dbDSN := "root:pass@(10.0.0.1:3306)/db"
  tableName := "Order"
  randNO := 3
  pathDelim := "/"
  sourcePath := "templates/sponge"
  selfPackageName := "github.com/zhufuyi/sponge"
  templateVersion := "v1.2.3"
  kebabServerName := "bar"
  sqliteDSN := "sponge.db"
  codeModel := "[[model-body]]"
  codeDAO := "[[dao-body]]"
  codeProto := "[[proto-body]]"
  adjustedServiceCode := "[[service-body]]"
  dbConfigCode := "[[db-config-body]]"
  initDBCode := "[[init-db-body]]"
  embedTimeCode := "[[embed-time-body]]"
  rpcServerConfigCode := "[[rpc-server-config-body]]"
  appConfigFileMark := "[[mark-app-config]]"
  appConfigFileMark2 := "[[mark-app-config-2]]"
  modelFileMark := "[[mark-model-file]]"
  modelInitDBFileMark := "[[mark-model-init-db]]"
  daoFileMark := "[[mark-dao-file]]"
  embedTimeMark := "[[mark-embed-time]]"
  protoFileMark := "[[mark-proto-file]]"
  protoShellFileGRPCMark := "[[mark-proto-shell-grpc]]"
  protoShellGRPCMarkCode := "[[proto-shell-grpc-body]]"
  protoShellFileMark := "[[mark-proto-shell]]"
  protoShellServiceTmplCode := "[[proto-shell-service-body]]"
  serviceFileMark := "[[mark-service-file]]"
  dockerFileMark := "[[mark-docker-file]]"
  dockerFileGrpcCode := "[[docker-file-body]]"
  dockerFileBuildMark := "[[mark-docker-build]]"
  dockerFileBuildGrpcCode := "[[docker-build-body]]"
  imageBuildFileMark := "[[mark-image-build]]"
  imageBuildFileGrpcCode := "[[image-build-body]]"
  imageBuildLocalFileMark := "[[mark-image-build-local]]"
  imageBuildLocalFileGrpcCode := "[[image-build-local-body]]"
  dockerComposeFileMark := "[[mark-docker-compose]]"
  dockerComposeFileGrpcCode := "[[docker-compose-body]]"
  k8sDeploymentFileMark := "[[mark-k8s-deployment]]"
  k8sDeploymentFileGrpcCode := "[[k8s-deployment-body]]"
  k8sServiceFileMark := "[[mark-k8s-service]]"
  k8sServiceFileGrpcCode := "[[k8s-service-body]]"
  spongeTemplateVersionMark := "[[mark-sponge-template-version]]"
  dynamicFields := []

/-- The same parameters with a different `rand.Intn(100)` draw. -/
def sampleParamsAlt : RpcParams :=
  { sampleParams with randNO := 57 }

/-- The `sql2code.Generate` collaborator used by the C5 witness: it fails
on the table named `bad` and succeeds elsewhere. -/
def s2cSample (t : String) : Except String String :=
  if t = "bad" then .error "schema failed" else .ok ("code-" ++ t)

/-- The per-table generation pass used by the C5 witness: it always
succeeds and returns an extended output path. -/
def genSample (t _code out : String) : Except String String :=
  .ok (out ++ "/" ++ t)

/-- The filesystem of the C1 failing input: the terminal identifier file
exists under the requested output directory `/srv/app`, and nowhere
else. -/
def sampleFS : List String := ["/srv/app/internal/model/init.go"]

/-! ### Lemmas about the substitution engine -/

theorem startsWithL_self (cs : Bool) : ∀ s : List Char, startsWithL cs s s = true := by
  intro s
  induction s with
  | nil => rfl
  | cons c rest ih => simp [startsWithL, ih]

theorem replaceFuel_nil (cs : Bool) (fuel : Nat) (old new : List Char) :
    replaceFuel cs fuel [] old new = [] := by
  cases fuel <;> rfl

/-- Replacing a non-empty pattern inside itself yields exactly the
replacement text. -/
theorem replaceFuel_self (cs : Bool) (s new : List Char) (h : s ≠ []) :
    replaceFuel cs s.length s s new = new := by
  cases s with
  | nil => exact absurd rfl h
  | cons c rest =>
    show replaceFuel cs (rest.length + 1) (c :: rest) (c :: rest) new = new
    rw [replaceFuel]
    rw [if_pos ⟨by simp, startsWithL_self cs (c :: rest)⟩]
    simp [replaceFuel_nil]

/-- When the pattern occurs nowhere in the content, `replaceFuel` is the
identity (given enough fuel). -/
theorem replaceFuel_no_match (cs : Bool) (old new : List Char) :
    ∀ (fuel : Nat) (s : List Char), s.length ≤ fuel →
      hasMatchL cs old s = false → replaceFuel cs fuel s old new = s := by
  intro fuel
  induction fuel with
  | zero => intro s _ _; cases s <;> rfl
  | succ n ih =>
    intro s hlen hmatch
    cases s with
    | nil => rfl
    | cons c rest =>
      rw [hasMatchL] at hmatch
      by_cases hc : old ≠ [] ∧ startsWithL cs old (c :: rest) = true
      · rw [if_pos hc] at hmatch; exact absurd hmatch (by simp)
      · rw [if_neg hc] at hmatch
        rw [replaceFuel, if_neg hc,
          ih rest (by simpa using Nat.lt_succ_iff.mp (Nat.lt_of_lt_of_le (Nat.lt_succ_self _)
            (by simpa using hlen))) hmatch]

/-- A field whose pattern does not occur leaves the content unchanged. -/
theorem applyField_no_hit (f : Field) (s : String) (h : fieldHits f s = false) :
    applyField f s = s := by
  unfold applyField
  rw [replaceFuel_no_match f.isCaseSensitive f.old.data f.new.data s.data.length s.data
    (Nat.le_refl _) h]

/-- A field list none of whose patterns occur leaves the content
unchanged. -/
theorem applyFields_no_hit (fs : List Field) (s : String)
    (h : ∀ f ∈ fs, fieldHits f s = false) : applyFields fs s = s := by
  induction fs with
  | nil => rfl
  | cons f rest ih =>
    have h1 : applyField f s = s := applyField_no_hit f s (h f (List.mem_cons_self f rest))
    show applyFields rest (applyField f s) = s
    rw [h1]
    exact ih fun g hg => h g (List.mem_cons_of_mem f hg)

theorem applyFields_append (a b : List Field) (s : String) :
    applyFields (a ++ b) s = applyFields b (applyFields a s) := by
  simp [applyFields, List.foldl_append]

theorem applyFields_cons (f : Field) (fs : List Field) (s : String) :
    applyFields (f :: fs) s = applyFields fs (applyField f s) := rfl

/-- Applying the narrow corrective rule to exactly its own pattern yields
the restored shared-library path. -/
theorem applyField_narrow (p : RpcParams) :
    applyField (narrowPkgField p) (p.moduleName ++ "/pkg") = spongePkgPath := by
  show String.mk (replaceFuel false (p.moduleName ++ "/pkg").data.length
      (p.moduleName ++ "/pkg").data (p.moduleName ++ "/pkg").data spongePkgPath.data) = spongePkgPath
  rw [replaceFuel_self false (p.moduleName ++ "/pkg").data spongePkgPath.data
    (by simp [String.data_append])]

/-- Applying the broad module-path rule to the shared-library import path
rewrites its prefix, leaving `moduleName ++ "/pkg"`.  (Replacement text is
not rescanned, so this holds for every module name.) -/
theorem applyField_broad (p : RpcParams) :
    applyField (broadModuleField p) spongePkgPath = p.moduleName ++ "/pkg" := rfl

/-- C7: In the rpc pass's ordered substitution field list, the broad rule
rewriting the module-path prefix `github.com/zhufuyi/sponge` to the
caller's module name appears strictly before (indeed, immediately before)
the narrow corrective rule rewriting `moduleName ++ "/pkg"` back to
`github.com/zhufuyi/sponge/pkg`; applying the whole ordered list to content
consisting of the shared-library import path leaves that path restored,
provided the other rules of the list — the replacer-dependent dynamic
fields and marker constants among them — do not themselves match the
path. -/
theorem broad_module_rule_before_narrow_pkg_rule_restores_path (p : RpcParams)
    (hpre : ∀ f ∈ rpcFieldsBeforeBroad p, fieldHits f spongePkgPath = false)
    (hpost : ∀ f ∈ rpcFieldsAfterNarrow p, fieldHits f spongePkgPath = false) :
    rpcAddFields p =
      rpcFieldsBeforeBroad p ++ broadModuleField p :: narrowPkgField p :: rpcFieldsAfterNarrow p ∧
    applyFields (rpcAddFields p) spongePkgPath = spongePkgPath := by
  refine ⟨rfl, ?_⟩
  show applyFields (rpcFieldsBeforeBroad p ++
      broadModuleField p :: narrowPkgField p :: rpcFieldsAfterNarrow p) spongePkgPath =
    spongePkgPath
  rewrite [applyFields_append, applyFields_no_hit _ _ hpre]
  rewrite [applyFields_cons, applyField_broad, applyFields_cons, applyField_narrow]
  exact applyFields_no_hit _ _ hpost

/-- Witness for C7 at the concrete parameter set. -/
theorem broad_module_rule_before_narrow_pkg_rule_restores_path_witness :
    applyFields (rpcAddFields sampleParams) spongePkgPath = spongePkgPath :=
  (broad_module_rule_before_narrow_pkg_rule_restores_path sampleParams
    (by decide) (by decide)).2

/-- C9: the rpc field list contains a rule whose replacement text embeds
the `rand.Intn(100)` draw into the `_userExampleNO` error-code line, so two
invocations that differ only in that pseudo-random draw (all generation
inputs identical) produce different content at that line; each single
field-list application is a pure function of the parameter record, so the
output is deterministic once the draw is fixed. -/
theorem rpc_field_list_embeds_random_error_code :
    (∀ p : RpcParams, userExampleNOField p ∈ rpcAddFields p ∧
      (userExampleNOField p).new = "_userExampleNO       = " ++ toString p.randNO) ∧
    sampleParamsAlt = { sampleParams with randNO := 57 } ∧
    sampleParams.randNO < 100 ∧ sampleParamsAlt.randNO < 100 ∧
    applyFields (rpcAddFields sampleParams) "_userExampleNO       = 2" =
      "_userExampleNO       = 3" ∧
    applyFields (rpcAddFields sampleParamsAlt) "_userExampleNO       = 2" =
      "_userExampleNO       = 57" ∧
    applyFields (rpcAddFields sampleParams) "_userExampleNO       = 2" ≠
      applyFields (rpcAddFields sampleParamsAlt) "_userExampleNO       = 2" := by
  refine ⟨fun p => ⟨?_, rfl⟩, rfl, by decide, by decide, by decide, by decide, by decide⟩
  simp [rpcAddFields, rpcFieldsAfterNarrow]

/-! ### Claims about table-list handling -/

theorem modelGenerateArgs_embed_false (driver : String) (h : driver = DBDriverMongodb) :
    ∀ (ts : List String) (emb : Bool), ∀ pr ∈ modelGenerateArgs driver ts emb, pr.2 = false := by
  intro ts
  induction ts with
  | nil => intro emb pr hpr; simp [modelGenerateArgs] at hpr
  | cons t rest ih =>
    intro emb pr hpr
    by_cases ht : t = ""
    · rw [modelGenerateArgs, if_pos ht] at hpr
      exact ih emb pr hpr
    · rw [modelGenerateArgs, if_neg ht] at hpr
      simp only [h, if_pos rfl, List.mem_cons] at hpr
      rcases hpr with rfl | hpr
      · rfl
      · have := ih false pr (by simpa [h] using hpr)
        exact this

/-- C2: with driver equal to the mongodb constant, every
`sql2code.Generate` call of the model command and of the rpc command
receives `IsEmbed = false`, regardless of the `--embed` flag. -/
theorem mongodb_driver_forces_embed_false (driver : String) (h : driver = DBDriverMongodb)
    (embedFlag : Bool) (dbTables : String) :
    (∀ pr ∈ modelCommandGenerateArgs driver embedFlag dbTables, pr.2 = false) ∧
    (∀ pr ∈ rpcGenerateArgs driver embedFlag dbTables, pr.2 = false) := by
  constructor
  · exact modelGenerateArgs_embed_false driver h (splitTables dbTables) embedFlag
  · intro pr hpr
    rw [rpcGenerateArgs] at hpr
    simp only [h, if_pos rfl, List.mem_cons, List.mem_map] at hpr
    rcases hpr with rfl | ⟨t, _, rfl⟩
    · rfl
    · rfl

/-- Witness for C2: the mongodb driver with `--embed=true` and two
tables. -/
theorem mongodb_driver_forces_embed_false_witness :
    (("t1", false) ∈ modelCommandGenerateArgs "mongodb" true "t1,t2") ∧
    (∀ pr ∈ modelCommandGenerateArgs "mongodb" true "t1,t2", pr.2 = false) ∧
    (∀ pr ∈ rpcGenerateArgs "mongodb" true "t1,t2", pr.2 = false) :=
  ⟨by decide, (mongodb_driver_forces_embed_false "mongodb" rfl true "t1,t2").1,
    (mongodb_driver_forces_embed_false "mongodb" rfl true "t1,t2").2⟩

/-- C3 counterexample: in the rpc command the primary (first) entry of the
comma-separated table list is passed to `sql2code.Generate` even when it is
empty — with `--db-table=",t2"` the empty first entry yields a
schema-to-code call. -/
theorem rpc_primary_empty_table_gets_schema_call :
    splitTables ",t2" = ["", "t2"] ∧
    ("", true) ∈ rpcGenerateArgs DBDriverMysql true ",t2" := by decide

theorem modelGenerateArgs_no_empty (driver : String) :
    ∀ (ts : List String) (emb : Bool), ∀ pr ∈ modelGenerateArgs driver ts emb, pr.1 ≠ "" := by
  intro ts
  induction ts with
  | nil => intro emb pr hpr; simp [modelGenerateArgs] at hpr
  | cons t rest ih =>
    intro emb pr hpr
    by_cases ht : t = ""
    · rw [modelGenerateArgs, if_pos ht] at hpr
      exact ih emb pr hpr
    · rw [modelGenerateArgs, if_neg ht] at hpr
      simp only [List.mem_cons] at hpr
      rcases hpr with rfl | hpr
      · exact ht
      · exact ih _ pr hpr

/-- C3 amended: every empty entry of the comma-separated table list is
skipped in the model command, and in the rpc command every empty secondary
entry is skipped; the rpc primary (first) entry, however, is passed to the
schema-to-code step even when empty. -/
theorem empty_entries_skipped_except_rpc_primary (driver : String) (embedFlag : Bool)
    (dbTables : String) :
    (∀ pr ∈ modelCommandGenerateArgs driver embedFlag dbTables, pr.1 ≠ "") ∧
    (∀ pr ∈ (rpcGenerateArgs driver embedFlag dbTables).tail, pr.1 ≠ "") := by
  constructor
  · exact modelGenerateArgs_no_empty driver (splitTables dbTables) embedFlag
  · intro pr hpr
    rw [rpcGenerateArgs] at hpr
    simp only [List.tail_cons, List.mem_map, List.mem_filter] at hpr
    obtain ⟨t, ⟨_, htne⟩, rfl⟩ := hpr
    simpa using htne

/-! ### Claims about output-path threading and failure propagation -/

theorem chainedFrom_chainPasses (gen : String → String → String) :
    ∀ (ts : List String) (out : String), chainedFrom out (chainPasses gen ts out) := by
  intro ts
  induction ts with
  | nil => intro out; trivial
  | cons t rest ih =>
    intro out
    by_cases ht : t = ""
    · rw [chainPasses, if_pos ht]
      exact ih out
    · rw [chainPasses, if_neg ht]
      exact ⟨rfl, ih (gen t out)⟩

theorem chainPasses_tables (gen : String → String → String) :
    ∀ (ts : List String) (out : String),
      (chainPasses gen ts out).map Pass.table = ts.filter (fun t => t ≠ "") := by
  intro ts
  induction ts with
  | nil => intro out; rfl
  | cons t rest ih =>
    intro out
    by_cases ht : t = ""
    · rw [chainPasses, if_pos ht, List.filter_cons_of_neg (by simpa using ht)]
      exact ih out
    · rw [chainPasses, if_neg ht, List.filter_cons_of_pos (by simpa using ht), List.map_cons]
      exact congrArg _ (ih (gen t out))

/-- C4: the passes of one rpc invocation run in listed order, primary
first; the primary pass receives the `--out` flag value, the first
secondary pass receives the path returned by the primary pass, and every
later secondary pass receives the path returned by the pass before it
(empty names produce no pass). -/
theorem rpc_passes_thread_output_paths (gen : String → String → String)
    (dbTables out0 : String) :
    chainedFrom out0 (rpcPasses gen dbTables out0) ∧
    (rpcPasses gen dbTables out0).map Pass.table =
      (rpcFirstAndRest (splitTables dbTables)).1 ::
        (rpcFirstAndRest (splitTables dbTables)).2.filter (fun t => t ≠ "") := by
  constructor
  · exact ⟨rfl, chainedFrom_chainPasses gen _ _⟩
  · rw [rpcPasses, List.map_cons]
    exact congrArg _ (chainPasses_tables gen _ _)

theorem runSecondaries_fail (s2c : String → Except String String)
    (gen : String → String → String → Except String String)
    (t : String) (ts2 : List String) (e : String) (ht : t ≠ "")
    (hfail : s2c t = .error e ∨ ∃ c, s2c t = .ok c ∧ ∀ out, gen t c out = .error e) :
    ∀ (ts1 : List String) (out : String),
      (∀ u ∈ ts1, u ≠ "" → ∃ c, s2c u = .ok c ∧ ∀ o, ∃ o', gen u c o = .ok o') →
      runSecondaries s2c gen (ts1 ++ t :: ts2) out =
        ((runSecondaries s2c gen ts1 out).1, .error e) := by
  intro ts1
  induction ts1 with
  | nil =>
    intro out _
    show runSecondaries s2c gen (t :: ts2) out = (([] : List Pass), .error e)
    rcases hfail with hf | ⟨c, hc, hg⟩
    · simp only [runSecondaries, if_neg ht, hf]
    · simp only [runSecondaries, if_neg ht, hc, hg]
  | cons u ts1 ih =>
    intro out hok
    have hok' : ∀ v ∈ ts1, v ≠ "" → ∃ c, s2c v = .ok c ∧ ∀ o, ∃ o', gen v c o = .ok o' :=
      fun v hv => hok v (List.mem_cons_of_mem u hv)
    by_cases hu : u = ""
    · simp only [List.cons_append, runSecondaries, if_pos hu]
      exact ih out hok'
    · obtain ⟨c, hc, hg⟩ := hok u (List.mem_cons_self u ts1) hu
      obtain ⟨o', hgo⟩ := hg out
      simp only [List.cons_append, runSecondaries, if_neg hu, hc, hgo, List.append_eq]
      rw [ih o' hok']

/-- C5: when the schema-to-code step or the generation pass of one
secondary table fails while the primary pass and every earlier secondary
pass succeed, the rpc command returns that error; the completed pass list
is exactly the pass list of a run that stops before the failing table (so
no pass for a later-listed table is started and earlier output is left as
written). -/
theorem failing_table_stops_later_passes_preserves_earlier
    (s2c : String → Except String String)
    (gen : String → String → String → Except String String)
    (first : String) (ts1 : List String) (t : String) (ts2 : List String)
    (out0 c0 o1 e : String)
    (hs2c0 : s2c first = .ok c0) (hgen0 : gen first c0 out0 = .ok o1)
    (hok : ∀ u ∈ ts1, u ≠ "" → ∃ c, s2c u = .ok c ∧ ∀ o, ∃ o', gen u c o = .ok o')
    (ht : t ≠ "")
    (hfail : s2c t = .error e ∨ ∃ c, s2c t = .ok c ∧ ∀ out, gen t c out = .error e) :
    rpcRunList s2c gen first (ts1 ++ t :: ts2) out0 =
      ((rpcRunList s2c gen first ts1 out0).1, .error e) := by
  have key := runSecondaries_fail s2c gen t ts2 e ht hfail ts1 o1 hok
  simp only [rpcRunList, hs2c0, hgen0]
  rw [key]

/-- Witness for C5: tables `a,b,bad,z`; the run stops at `bad` with its
schema error and keeps exactly the passes of the `a,b` prefix. -/
theorem failing_table_stops_later_passes_preserves_earlier_witness :
    rpcRunList s2cSample genSample "a" (["b"] ++ "bad" :: ["z"]) "base" =
      ((rpcRunList s2cSample genSample "a" ["b"] "base").1, .error "schema failed") :=
  failing_table_stops_later_passes_preserves_earlier s2cSample genSample
    "a" ["b"] "bad" ["z"] "base" "code-a" "base/a" "schema failed" rfl rfl
    (by
      intro u hu hne
      simp only [List.mem_singleton] at hu
      subst hu
      exact ⟨"code-b", rfl, fun o => ⟨o ++ "/" ++ "b", rfl⟩⟩)
    (by decide) (.inl rfl)

/-! ### Claims about driver dispatch and the generation-info record -/

theorem ignoreFilesFor_none (driver : String)
    (h1 : lowerStr driver ≠ DBDriverMysql) (h2 : lowerStr driver ≠ DBDriverPostgresql)
    (h3 : lowerStr driver ≠ DBDriverTidb) (h4 : lowerStr driver ≠ DBDriverSqlite)
    (h5 : lowerStr driver ≠ DBDriverMongodb) :
    rpcIgnoreFilesFor driver = none ∧ dbInitIgnoreFilesFor driver = none := by
  constructor
  · simp [rpcIgnoreFilesFor, h1, h2, h3, h4, h5]
  · simp [dbInitIgnoreFilesFor, h1, h2, h3, h4, h5]

/-- C6: a driver that is none of mysql, postgresql, tidb, sqlite or
mongodb after lower-casing makes both `rpcGenerator.generateCode` and
`dbInitGenerator.generateCode` return an unsupported-driver error with no
file written — `SaveFiles` is never consulted. -/
theorem unsupported_driver_errors_before_save (driver : String)
    (saveR saveD : List String → Except String (List String))
    (moduleName serverName outR outD : String) (st : GenInfoStore)
    (h1 : lowerStr driver ≠ DBDriverMysql) (h2 : lowerStr driver ≠ DBDriverPostgresql)
    (h3 : lowerStr driver ≠ DBDriverTidb) (h4 : lowerStr driver ≠ DBDriverSqlite)
    (h5 : lowerStr driver ≠ DBDriverMongodb) :
    rpcGenerateCode true driver moduleName serverName saveR outR st =
      (⟨[], .error ("unsupported db driver: " ++ driver)⟩, st) ∧
    dbInitGenerateCode true driver saveD outD =
      ⟨[], .error ("unsupported database driver: " ++ driver)⟩ := by
  have hn := ignoreFilesFor_none driver h1 h2 h3 h4 h5
  constructor
  · simp [rpcGenerateCode, hn.1]
  · simp [dbInitGenerateCode, hn.2]

/-- Witness for C6 at the unsupported driver `oracle`. -/
theorem unsupported_driver_errors_before_save_witness :
    rpcGenerateCode true "oracle" "m" "s" (fun l => .ok l) "outR" ⟨[]⟩ =
      (⟨[], .error ("unsupported db driver: " ++ "oracle")⟩, (⟨[]⟩ : GenInfoStore)) ∧
    dbInitGenerateCode true "oracle" (fun l => .ok l) "outD" =
      ⟨[], .error ("unsupported database driver: " ++ "oracle")⟩ :=
  unsupported_driver_errors_before_save "oracle" (fun l => .ok l) (fun l => .ok l)
    "m" "s" "outR" "outD" ⟨[]⟩ (by decide) (by decide) (by decide) (by decide) (by decide)

/-- C8: a successful rpc primary pass persists the generation-info record
`(moduleName, serverName)` for its output directory; a later `gen-db-init`
on that directory recovers the module name and uses it for every value of
the `--module-name` flag, and in general the resolution errors exactly
when the recovered name and the flag are both empty. -/
theorem gen_info_record_roundtrip_module_resolution
    (st : GenInfoStore) (m s dir : String) (files : List String)
    (save : List String → Except String (List String))
    (hsave : save rpcRelationalIgnoreFiles = .ok files) (hm : m ≠ "") :
    rpcGenerateCode true "mysql" m s save dir st =
      (⟨files, .ok dir⟩, saveGenInfo m s dir st) ∧
    getNamesFromOutDir dir (saveGenInfo m s dir st) = (m, s) ∧
    (∀ flagVal, genDBInitResolveModule (saveGenInfo m s dir st) dir flagVal = .ok m) ∧
    (∀ (st' : GenInfoStore) (dir' flag' : String),
      (∃ e, genDBInitResolveModule st' dir' flag' = .error e) ↔
        ((getNamesFromOutDir dir' st').1 = "" ∧ flag' = "")) := by
  have hmysql : rpcIgnoreFilesFor "mysql" = some rpcRelationalIgnoreFiles := rfl
  have hget : getNamesFromOutDir dir (saveGenInfo m s dir st) = (m, s) := by
    rw [getNamesFromOutDir, saveGenInfo, List.find?_cons_of_pos _ (by simp)]
  refine ⟨?_, hget, ?_, ?_⟩
  · simp [rpcGenerateCode, hmysql, hsave]
  · intro flagVal
    simp [genDBInitResolveModule, hget, hm]
  · intro st' dir' flag'
    by_cases hmd : (getNamesFromOutDir dir' st').1 = ""
    · by_cases hf : flag' = ""
      · simp [genDBInitResolveModule, hmd, hf]
      · simp [genDBInitResolveModule, hmd, hf]
    · simp [genDBInitResolveModule, hmd]

/-- Witness for C8 at concrete identity values. -/
theorem gen_info_record_roundtrip_module_resolution_witness :
    getNamesFromOutDir "out" (saveGenInfo "example.com/foo" "bar" "out" ⟨[]⟩) =
      ("example.com/foo", "bar") ∧
    genDBInitResolveModule (saveGenInfo "example.com/foo" "bar" "out" ⟨[]⟩) "out" "other" =
      .ok "example.com/foo" :=
  ⟨(gen_info_record_roundtrip_module_resolution ⟨[]⟩ "example.com/foo" "bar" "out"
      ["f"] (fun _ => .ok ["f"]) rfl (by decide)).2.1,
    (gen_info_record_roundtrip_module_resolution ⟨[]⟩ "example.com/foo" "bar" "out"
      ["f"] (fun _ => .ok ["f"]) rfl (by decide)).2.2.1 "other"⟩

/-- C10: driver-string case handling is inconsistent: the ignore-file
selection lower-cases the driver, so `MongoDB` selects the
mongodb-variant file set in both generators, while the embed-forcing rule
compares the driver string exactly, so `MongoDB` still honors the caller's
embed flag although the lowercase constant forces it to false. -/
theorem driver_case_normalization_inconsistency :
    rpcIgnoreFilesFor "MongoDB" = some rpcMongodbIgnoreFiles ∧
    dbInitIgnoreFilesFor "MongoDB" = some dbInitMongodbIgnoreFiles ∧
    rpcMongodbIgnoreFiles ≠ rpcRelationalIgnoreFiles ∧
    dbInitMongodbIgnoreFiles ≠ dbInitRelationalIgnoreFiles ∧
    effectiveEmbed "MongoDB" true = true ∧
    effectiveEmbed DBDriverMongodb true = false := by decide

/-- C1 (code bug): `gen-db-init` is invoked with the non-empty output path
`/srv/app` under which the terminal identifier file
`internal/model/init.go` already exists, but from the working directory
`/home/op`.  The collision check tests the bare relative `targetFile`
against the working directory, finds nothing, and the pass proceeds to
write files instead of aborting as a no-op. -/
theorem genDBInit_collision_check_misses_outPath_terminal :
    ("/srv/app" ++ "/" ++ targetFile) ∈ sampleFS ∧
    isExistsAt sampleFS "/home/op" targetFile = false ∧
    (genDBInitRun sampleFS "/home/op" ⟨[]⟩ "/srv/app" "m" "mysql" true
        (fun _ => .ok ["/srv/app/internal/model/init.go"]) "/srv/app").written =
      ["/srv/app/internal/model/init.go"] := by
  refine ⟨by decide, by decide, by decide⟩

end Sponge
